import Mathlib

/-!
Verification development for the durable workflow orchestration cluster
(namespace registry, namespace handler, matching task-queue manager).

Definitions are shallow embeddings of the repository's Go code:
  * the namespace registry read-through path is translated from
    the registry code (`getNamespaceByNamePersistence`,
    `getNamespaceByIDPersistence`, `updateReadthroughCache`,
    `readthroughCacheTTL`);
  * the frontend namespace handler (`UpdateNamespace`, `RegisterNamespace`,
    `mergeBadBinaries`, `mergeNamespaceData`) and the matching
    physical task-queue manager are not part of the visible sources, only
    their unit tests are; those operations are modelled from the spec and
    pinned by the concrete expectations of the in-repository tests.
-/

namespace Temporal

/-! ## Namespace registry read-through (from the registry source) -/

/-- A namespace record as held by the registry cache.  Only the fields the
registry read-through path inspects are carried. -/
structure Namespace where
  id : String
  name : String
  deriving DecidableEq, Repr

/-- Errors the persistence store can report on `GetNamespace`
(`serviceerror.NamespaceNotFound`, or any other error such as a timeout
or unavailability). -/
inductive StoreError where
  | namespaceNotFound (handle : String)
  | timeout
  | unavailable
  | internalError (msg : String)
  deriving DecidableEq, Repr

/-- The type test `if _, ok := err.(*serviceerror.NamespaceNotFound); ok`
performed by the read-through functions. -/
def StoreError.isNamespaceNotFound : StoreError → Bool
  | .namespaceNotFound _ => true
  | _ => false

/-- Errors the registry returns to its callers.  The read-through path only
ever constructs `serviceerror.NewNamespaceNotFound(handle)`. -/
inductive RegistryError where
  | namespaceNotFound (handle : String)
  deriving DecidableEq, Repr

/-- `cacheInitialSize = 10 * 1024` from the registry constants. -/
def cacheInitialSize : Nat := 10 * 1024

/-- `readthroughCacheTTL = 1 * time.Second` from the registry constants
(in seconds): minimum time to wait before trying to readthrough again. -/
def readthroughCacheTTL : Nat := 1

/-- Cache construction options (`cache.Options`): initial capacity and TTL
in seconds. -/
structure CacheOptions where
  initialCapacity : Nat
  ttl : Nat
  deriving DecidableEq, Repr

/-- `readthroughErrorsCacheOpts`: the options the registry uses to build its
negative-result (read-through errors) cache. -/
def readthroughErrorsCacheOpts : CacheOptions :=
  { initialCapacity := cacheInitialSize, ttl := readthroughCacheTTL }

/-- The read-through errors cache: an association list from requested handle
(name or id string) to the cached error.  Every entry carries the TTL of
`readthroughErrorsCacheOpts`; insertion (`cache.Put`) prepends, lookup takes
the first match. -/
def ReadthroughCache := List (String × RegistryError)

/-- `updateReadthroughCache`: store `err` in the read-through errors cache
keyed by `identifier`. -/
def updateReadthroughCache (identifier : String) (err : RegistryError)
    (cache : ReadthroughCache) : ReadthroughCache :=
  (identifier, err) :: cache

/-- Look up a cached read-through error (`getPreviousReadthroughError`). -/
def getPreviousReadthroughError (handle : String) (cache : ReadthroughCache) :
    Option RegistryError :=
  (List.find? (fun e => e.1 = handle) cache).map Prod.snd

/-- `getNamespaceByNamePersistence`: read through to the persistence layer by
name.  `storeResult` is the outcome of `getNamespacePersistence`.  On any
store error the function returns `NewNamespaceNotFound(name)`; only when the
store error itself is a `NamespaceNotFound` is the negative result written to
the read-through cache. -/
def getNamespaceByNamePersistence (name : String)
    (storeResult : Except StoreError Namespace) (cache : ReadthroughCache) :
    Except RegistryError Namespace × ReadthroughCache :=
  match storeResult with
  | .ok ns => (.ok ns, cache)
  | .error err =>
    let notFoundErr := RegistryError.namespaceNotFound name
    if err.isNamespaceNotFound then
      (.error notFoundErr, updateReadthroughCache name notFoundErr cache)
    else
      (.error notFoundErr, cache)

/-- `getNamespaceByIDPersistence`: read through to the persistence layer by
id; same structure as the by-name variant with the id as the handle. -/
def getNamespaceByIDPersistence (id : String)
    (storeResult : Except StoreError Namespace) (cache : ReadthroughCache) :
    Except RegistryError Namespace × ReadthroughCache :=
  match storeResult with
  | .ok ns => (.ok ns, cache)
  | .error err =>
    let notFoundErr := RegistryError.namespaceNotFound id
    if err.isNamespaceNotFound then
      (.error notFoundErr, updateReadthroughCache id notFoundErr cache)
    else
      (.error notFoundErr, cache)

/-! ## Namespace handler: failover history and UpdateNamespace

Modelled from the spec; the handler itself is outside the visible sources
and only its unit tests are available.  Times are in nanoseconds since the
epoch (`Nat`), versions are `Int`. -/

/-- A `failover_history` entry: `{failover_time, failover_version}`. -/
structure FailoverStatus where
  failoverTime : Nat
  failoverVersion : Int
  deriving DecidableEq, Repr

/-- Modelled from the spec: `failover_history` is bounded — "oldest entries
evicted when a cap is exceeded; cap is a configuration option".  Keep the
newest `cap` entries of `l`, dropping from the front (oldest first). -/
def evictOldest (cap : Nat) (l : List FailoverStatus) : List FailoverStatus :=
  if l.length ≤ cap then l else l.drop (l.length - cap)

/-- Modelled from the spec: on a failover, append the new
`(failover_time, failover_version)` entry at the end of `failover_history`
and evict the oldest entries when the configured cap is exceeded. -/
def maybeUpdateFailoverHistory (history : List FailoverStatus)
    (now : Nat) (newFailoverVersion : Int) (cap : Nat) : List FailoverStatus :=
  evictOldest cap (history ++ [⟨now, newFailoverVersion⟩])

/-- Namespace replication configuration: active cluster, ordered clusters
list, replication state (0 = NORMAL, 1 = HANDOVER), bounded failover
history. -/
structure ReplicationConfig where
  activeClusterName : String
  clusters : List String
  replicationState : Nat
  failoverHistory : List FailoverStatus
  deriving DecidableEq, Repr

/-- The persisted namespace record fields the UpdateNamespace path touches. -/
structure NamespaceDetail where
  id : String
  name : String
  configVersion : Int
  failoverVersion : Int
  failoverNotificationVersion : Int
  replicationConfig : ReplicationConfig
  deriving DecidableEq, Repr

/-- The parts of an `UpdateNamespace` request the replication paths read:
an optional new active cluster, the `promote_namespace` flag, and whether
any pure config/data field is being updated (which bumps `config_version`
but never `failover_version`). -/
structure UpdateNamespaceArgs where
  reqActiveCluster : Option String
  reqPromote : Bool
  configChanged : Bool
  deriving DecidableEq, Repr

/-- The persistence `UpdateNamespaceRequest` assembled by the handler. -/
structure UpdateNamespaceOutput where
  detail : NamespaceDetail
  isGlobalNamespace : Bool
  notificationVersion : Int
  deriving DecidableEq, Repr

/-- Whether the request changes the active cluster of `record`. -/
def activeClusterChanged (record : NamespaceDetail) (args : UpdateNamespaceArgs) : Bool :=
  match args.reqActiveCluster with
  | some c => decide (c ≠ record.replicationConfig.activeClusterName)
  | none => false

/-- Modelled from the spec: the `UpdateNamespace` write path for the
replication-relevant fields.  Inputs beyond the request: `recordIsGlobal`
(the stored `is_global` flag), `notificationVersion` (the metadata store's
notification version read at write time), `nextFailoverVersion` (the new
version obtained from the cluster-metadata allocator
`GetNextFailoverVersion`), `now` (the write-time clock value) and `cap`
(the configured failover-history cap).

* When the active cluster changes on a (possibly just-promoted) global
  namespace: set the new active cluster, take the allocator's version as
  `failover_version`, set `failover_notification_version` to the metadata
  notification version, and append a `(now, version)` entry to the bounded
  `failover_history`.
* When a local namespace is promoted without an active-cluster change:
  take the allocator's version and the notification version; the clusters
  list, active cluster and failover history are unchanged.
* Otherwise only `config_version` may move. -/
def updateNamespace (record : NamespaceDetail) (recordIsGlobal : Bool)
    (args : UpdateNamespaceArgs) (notificationVersion : Int)
    (nextFailoverVersion : Int) (now : Nat) (cap : Nat) : UpdateNamespaceOutput :=
  let isGlobal := recordIsGlobal || args.reqPromote
  let needsPromotion := args.reqPromote && !recordIsGlobal
  let configVersion :=
    if args.configChanged then record.configVersion + 1 else record.configVersion
  let newActive := args.reqActiveCluster.getD record.replicationConfig.activeClusterName
  if activeClusterChanged record args && isGlobal then
    { detail := { record with
        configVersion := configVersion
        failoverVersion := nextFailoverVersion
        failoverNotificationVersion := notificationVersion
        replicationConfig := { record.replicationConfig with
          activeClusterName := newActive
          failoverHistory := maybeUpdateFailoverHistory
            record.replicationConfig.failoverHistory now nextFailoverVersion cap } }
      isGlobalNamespace := isGlobal
      notificationVersion := notificationVersion }
  else if needsPromotion then
    { detail := { record with
        configVersion := configVersion
        failoverVersion := nextFailoverVersion
        failoverNotificationVersion := notificationVersion }
      isGlobalNamespace := isGlobal
      notificationVersion := notificationVersion }
  else
    { detail := { record with configVersion := configVersion }
      isGlobalNamespace := isGlobal
      notificationVersion := notificationVersion }

/-! ## Namespace handler: RegisterNamespace retention validation

Modelled from the spec and pinned by the in-repository tests: local
registration rejects retentions of 0, negative, one millisecond and thirty
minutes but accepts one hour; global registration additionally rejects ten
hours (requires at least one day). -/

/-- Minimum workflow-execution retention accepted for a local namespace,
in seconds (one hour; the tests reject thirty minutes and accept one
hour). -/
def minRetentionLocalSecs : Int := 3600

/-- Minimum workflow-execution retention accepted for a global namespace,
in seconds (one day). -/
def minRetentionGlobalSecs : Int := 86400

/-- Errors RegisterNamespace can return before persisting anything. -/
inductive RegisterError where
  | invalidRetentionPeriod
  | namespaceAlreadyExists
  deriving DecidableEq, Repr

/-- Modelled from the spec: `validateRetentionDuration` — the retention
period (seconds) must be at least the minimum for the namespace kind. -/
def validateRetentionDuration (retentionSecs : Int) (isGlobal : Bool) : Bool :=
  let lowerLimit := if isGlobal then minRetentionGlobalSecs else minRetentionLocalSecs
  decide (lowerLimit ≤ retentionSecs)

/-- The fields of a RegisterNamespace request the retention path reads. -/
structure RegisterNamespaceRequest where
  name : String
  retentionSecs : Int
  isGlobalNamespace : Bool
  deriving DecidableEq, Repr

/-- The persisted record produced by a successful registration. -/
structure CreateNamespaceRecord where
  name : String
  stateRegistered : Bool
  retentionSecs : Int
  isGlobalNamespace : Bool
  deriving DecidableEq, Repr

/-- Modelled from the spec: `RegisterNamespace` validates the retention
period first; an invalid retention is rejected with
`errInvalidRetentionPeriod` (an `InvalidArgument`) and nothing is
persisted; otherwise a `CreateNamespace` record is emitted. -/
def registerNamespace (req : RegisterNamespaceRequest) :
    Except RegisterError CreateNamespaceRecord :=
  if !validateRetentionDuration req.retentionSecs req.isGlobalNamespace then
    .error .invalidRetentionPeriod
  else
    .ok { name := req.name
          stateRegistered := true
          retentionSecs := req.retentionSecs
          isGlobalNamespace := req.isGlobalNamespace }

/-! ## Namespace handler: map merges

Go maps are embedded as association lists with unique keys; `nil` maps are
`Option` values (`none`).  Insertion replaces in place on an existing key
and appends otherwise, matching Go map assignment. -/

/-- Go map assignment `m[k] = v` on an association list: replace the first
binding of `k` in place, or append a new binding. -/
def insertAssoc (k : String) (v : α) : List (String × α) → List (String × α)
  | [] => [(k, v)]
  | (k', v') :: rest =>
    if k' = k then (k, v) :: rest else (k', v') :: insertAssoc k v rest

/-- Go map lookup `m[k]` on an association list. -/
def lookupAssoc (k : String) : List (String × α) → Option α
  | [] => none
  | (k', v') :: rest => if k' = k then some v' else lookupAssoc k rest

/-- A bad-binary info entry; `createTime` is `none` until stamped. -/
structure BadBinaryInfo where
  reason : String
  operator : String
  createTime : Option Nat
  deriving DecidableEq, Repr

/-- Modelled from the spec: `mergeNamespaceData(old, new)` — start from
`old` (a `nil` map behaves as empty) and assign every entry of `new` over
it, so `new`'s value wins on common keys. -/
def mergeNamespaceData (a b : Option (List (String × String))) :
    List (String × String) :=
  (b.getD []).foldl (fun acc kv => insertAssoc kv.1 kv.2 acc) (a.getD [])

/-- Modelled from the spec: `mergeBadBinaries(old, new, t)` — start from
`old` (a `nil` map behaves as empty) and assign every entry of `new` over
it with its `CreateTime` set to `t`; keys only in `old` keep their prior
value including their prior `CreateTime`. -/
def mergeBadBinaries (a : Option (List (String × BadBinaryInfo)))
    (b : List (String × BadBinaryInfo)) (t : Nat) :
    List (String × BadBinaryInfo) :=
  b.foldl (fun acc kv => insertAssoc kv.1 { kv.2 with createTime := some t } acc)
    (a.getD [])

/-! ## Matching: physical task-queue manager ack-level updates on unload

Modelled from the spec: a partition owner writes ack-level updates to
persistence; a write that fails the range-id CAS returns `ConditionFailed`,
upon which the owner marks ownership lost and unloads; on unload a final
ack-level update is written only if ownership is still held. -/

/-- Events observable by a physical task-queue manager: a periodic
ack-level persistence write (whose range-id CAS either succeeds or fails
with `ConditionFailed`), and the unload of the partition. -/
inductive TqmEvent where
  | periodicUpdate (rangeIdValid : Bool)
  | unload
  deriving DecidableEq, Repr

/-- Manager state: number of ack-level update attempts issued to
persistence, whether a `ConditionFailed` has been observed (ownership
lost), and whether the partition has unloaded. -/
structure TqmState where
  updateCount : Nat
  ownershipLost : Bool
  unloaded : Bool
  deriving DecidableEq, Repr

/-- A freshly started manager. -/
def initialTqmState : TqmState :=
  { updateCount := 0, ownershipLost := false, unloaded := false }

/-- Modelled from the spec: one step of the manager.  A periodic update on
a live owner always issues a persistence write; if the range-id CAS fails
(`ConditionFailed`) the owner marks ownership lost and unloads.  On unload,
the final ack-level update is written only if ownership is still held. -/
def tqmStep (s : TqmState) : TqmEvent → TqmState
  | .periodicUpdate rangeIdValid =>
    if s.unloaded || s.ownershipLost then s
    else if rangeIdValid then { s with updateCount := s.updateCount + 1 }
    else { s with updateCount := s.updateCount + 1, ownershipLost := true,
                  unloaded := true }
  | .unload =>
    if s.unloaded then s
    else if s.ownershipLost then { s with unloaded := true }
    else { s with updateCount := s.updateCount + 1, unloaded := true }

/-- Run the manager over a sequence of events. -/
def tqmRun (s : TqmState) : List TqmEvent → TqmState
  | [] => s
  | e :: es => tqmRun (tqmStep s e) es

/-! ## Matching: poller-scaling decisions

Modelled from the spec rules for the poller-scaling decision function. -/

/-- Task-queue statistics the decision function reads. -/
structure TaskQueueStats where
  approximateBacklogCount : Nat
  approximateBacklogAgeMs : Nat
  tasksAddRate : Nat
  tasksDispatchRate : Nat
  deriving DecidableEq, Repr

/-- Backlog-age threshold (milliseconds) above which a backlog is
considered old enough to suggest more pollers. -/
def pollerScalingBacklogAgeThresholdMs : Nat := 200

/-- Sync-match wait (milliseconds) above which a poll is considered a long
wait (about one second per the spec). -/
def pollerScalingLongWaitThresholdMs : Nat := 1000

/-- Modelled from the spec: the poller-scaling decision function.  `isRoot`
says whether this partition is the root, `pollWaitMs` is the time the
answered poll spent waiting, `rateLimiterAllows` is the verdict of the
global rate limiter.  Returns the `PollRequestDeltaSuggestion`, or `none`
for no suggestion.

* No backlog and a long sync-match wait: suggest a decrease.
* A non-empty backlog older than the threshold: suggest an increase.
* Root partition whose add rate exceeds its dispatch rate: suggest an
  increase.
* Otherwise (in particular a fast match with no backlog): no suggestion.
* A non-root partition only emits positive suggestions (on high backlog).
* Any suggestion is dropped when the global rate limiter denies it. -/
def makePollerScalingDecision (isRoot : Bool) (pollWaitMs : Nat)
    (stats : TaskQueueStats) (rateLimiterAllows : Bool) : Option Int :=
  let delta : Int :=
    if stats.approximateBacklogCount = 0 &&
       decide (pollerScalingLongWaitThresholdMs < pollWaitMs) then -1
    else if decide (0 < stats.approximateBacklogCount) &&
            decide (pollerScalingBacklogAgeThresholdMs < stats.approximateBacklogAgeMs) then 1
    else if isRoot && decide (stats.tasksDispatchRate < stats.tasksAddRate) then 1
    else 0
  if delta = 0 then none
  else if !isRoot && decide (delta < 0) then none
  else if rateLimiterAllows then some delta
  else none

/-! ## Concrete data of the limit-record-history test

From `TestUpdateNamespace_UpdateActiveCluster_LimitRecordHistory`: a prior
`failover_history` of five entries, all at `update1Time`, and the expected
persisted history computed by the test as clone-append-slice `[0:]`. -/

/-- `update1Time = time.Date(2011, 12, 27, 23, 44, 55, 999999, time.UTC)`
(nanoseconds since the epoch). -/
def update1Time : Nat := 1325029495000999999

/-- The five-entry prior `failover_history` of the limit-record-history
test (versions 2, 11, 12, 21, 22, all at `update1Time`). -/
def limitRecordHistoryPrior : List FailoverStatus :=
  [⟨update1Time, 2⟩, ⟨update1Time, 11⟩, ⟨update1Time, 12⟩,
   ⟨update1Time, 21⟩, ⟨update1Time, 22⟩]

/-- The history the test expects `UpdateNamespace` to persist: the prior
history cloned, the new `(update1Time, 32)` entry appended, then sliced
`sizeLimitedFailoverHistory[0:]`. -/
def sizeLimitedFailoverHistory : List FailoverStatus :=
  (limitRecordHistoryPrior ++ [(⟨update1Time, 32⟩ : FailoverStatus)]).drop 0

/-! ## Lemmas about the bounded failover history -/

theorem evictOldest_length_le (cap : Nat) (l : List FailoverStatus) :
    (evictOldest cap l).length ≤ cap := by
  unfold evictOldest
  split
  · next h => exact h
  · next h =>
    simp only [List.length_drop]
    omega

theorem evictOldest_of_length_le {cap : Nat} {l : List FailoverStatus}
    (h : l.length ≤ cap) : evictOldest cap l = l := by
  unfold evictOldest
  exact if_pos h

theorem evictOldest_getLast? {cap : Nat} (hcap : 1 ≤ cap)
    (l : List FailoverStatus) (x : FailoverStatus) :
    (evictOldest cap (l ++ [x])).getLast? = some x := by
  unfold evictOldest
  split
  · simp [List.getLast?_append]
  · next h =>
    rw [List.drop_append_of_le_length (by simp at h ⊢; omega)]
    simp [List.getLast?_append]

theorem maybeUpdateFailoverHistory_length_le (h : List FailoverStatus)
    (now : Nat) (v : Int) (cap : Nat) :
    (maybeUpdateFailoverHistory h now v cap).length ≤ cap :=
  evictOldest_length_le cap _

theorem maybeUpdateFailoverHistory_getLast? (h : List FailoverStatus)
    (now : Nat) (v : Int) {cap : Nat} (hcap : 1 ≤ cap) :
    (maybeUpdateFailoverHistory h now v cap).getLast? = some ⟨now, v⟩ :=
  evictOldest_getLast? hcap h _

theorem maybeUpdateFailoverHistory_of_lt_cap {h : List FailoverStatus}
    (now : Nat) (v : Int) {cap : Nat} (hcap : h.length + 1 ≤ cap) :
    maybeUpdateFailoverHistory h now v cap = h ++ [⟨now, v⟩] :=
  evictOldest_of_length_le (by simpa using hcap)

/-! ## Lemmas about the UpdateNamespace model -/

theorem updateNamespace_of_activeClusterChanged
    (record : NamespaceDetail) (recordIsGlobal : Bool) (args : UpdateNamespaceArgs)
    (notificationVersion nextFailoverVersion : Int) (now : Nat) (cap : Nat)
    (hchange : activeClusterChanged record args = true)
    (hglobal : (recordIsGlobal || args.reqPromote) = true) :
    updateNamespace record recordIsGlobal args notificationVersion
        nextFailoverVersion now cap =
      { detail := { record with
          configVersion :=
            if args.configChanged then record.configVersion + 1 else record.configVersion
          failoverVersion := nextFailoverVersion
          failoverNotificationVersion := notificationVersion
          replicationConfig := { record.replicationConfig with
            activeClusterName :=
              args.reqActiveCluster.getD record.replicationConfig.activeClusterName
            failoverHistory := maybeUpdateFailoverHistory
              record.replicationConfig.failoverHistory now nextFailoverVersion cap } }
        isGlobalNamespace := recordIsGlobal || args.reqPromote
        notificationVersion := notificationVersion } := by
  unfold updateNamespace
  rw [hglobal, hchange]
  simp

/-! ## Lemmas about association-list maps -/

theorem lookupAssoc_insertAssoc (k q : String) (v : α) (l : List (String × α)) :
    lookupAssoc q (insertAssoc k v l) =
      if k = q then some v else lookupAssoc q l := by
  induction l with
  | nil => simp [insertAssoc, lookupAssoc]
  | cons kv rest ih =>
    obtain ⟨k', v'⟩ := kv
    by_cases hk : k' = k
    · by_cases hq : k = q <;> simp [insertAssoc, lookupAssoc, hk, hq]
    · by_cases hq : k' = q
      · have hkq : ¬ k = q := fun h => hk (h ▸ hq)
        have hqk : ¬ q = k := fun h => hkq h.symm
        simp [insertAssoc, lookupAssoc, hk, hq, hkq, hqk]
      · simp [insertAssoc, lookupAssoc, hk, hq, ih]

theorem lookupAssoc_eq_none_of_not_mem {k : String} {l : List (String × α)}
    (h : k ∉ l.map Prod.fst) : lookupAssoc k l = none := by
  induction l with
  | nil => rfl
  | cons kv rest ih =>
    simp only [List.map_cons, List.mem_cons] at h
    push_neg at h
    rw [lookupAssoc, if_neg (fun hq => h.1 hq.symm), ih h.2]

/-- Looking up a key after folding Go map assignments of `b` (with each
value transformed by `g`) over an accumulator: keys of `b` win, with `g`
applied; other keys fall through to the accumulator. -/
theorem lookupAssoc_foldl_insertAssoc (g : α → α) (b : List (String × α))
    (acc : List (String × α)) (k : String)
    (hb : (b.map Prod.fst).Nodup) :
    lookupAssoc k (b.foldl (fun acc kv => insertAssoc kv.1 (g kv.2) acc) acc) =
      match lookupAssoc k b with
      | some v => some (g v)
      | none => lookupAssoc k acc := by
  induction b generalizing acc with
  | nil => simp [lookupAssoc]
  | cons kv rest ih =>
    simp only [List.map_cons, List.nodup_cons] at hb
    rw [List.foldl_cons, ih _ hb.2, lookupAssoc]
    by_cases hq : kv.1 = k
    · rw [if_pos hq]
      rw [lookupAssoc_eq_none_of_not_mem (hq ▸ hb.1)]
      simp [lookupAssoc_insertAssoc, hq]
    · rw [if_neg hq]
      cases hrest : lookupAssoc k rest with
      | some v => rfl
      | none => simp [lookupAssoc_insertAssoc, hq]

theorem lookupAssoc_foldl_insertAssoc_some (g : α → α) {b : List (String × α)}
    (acc : List (String × α)) (k : String)
    (hb : (b.map Prod.fst).Nodup) {v : α} (hv : lookupAssoc k b = some v) :
    lookupAssoc k (b.foldl (fun acc kv => insertAssoc kv.1 (g kv.2) acc) acc)
      = some (g v) := by
  rw [lookupAssoc_foldl_insertAssoc g b acc k hb, hv]

theorem lookupAssoc_foldl_insertAssoc_none (g : α → α) {b : List (String × α)}
    (acc : List (String × α)) (k : String)
    (hb : (b.map Prod.fst).Nodup) (hv : lookupAssoc k b = none) :
    lookupAssoc k (b.foldl (fun acc kv => insertAssoc kv.1 (g kv.2) acc) acc)
      = lookupAssoc k acc := by
  rw [lookupAssoc_foldl_insertAssoc g b acc k hb, hv]

theorem insertAssoc_eq_append_of_not_mem {k : String} {l : List (String × α)}
    (h : k ∉ l.map Prod.fst) (v : α) : insertAssoc k v l = l ++ [(k, v)] := by
  induction l with
  | nil => rfl
  | cons kv rest ih =>
    simp only [List.map_cons, List.mem_cons] at h
    push_neg at h
    rw [insertAssoc, if_neg (fun hq => h.1 hq.symm), ih h.2, List.cons_append]

/-- Folding Go map assignments of `b` over an accumulator whose keys are
disjoint from `b`'s appends `b` in order. -/
theorem foldl_insertAssoc_eq_append (b : List (String × α)) (acc : List (String × α))
    (hdisj : ∀ kv ∈ b, kv.1 ∉ acc.map Prod.fst)
    (hb : (b.map Prod.fst).Nodup) :
    b.foldl (fun acc kv => insertAssoc kv.1 kv.2 acc) acc = acc ++ b := by
  induction b generalizing acc with
  | nil => simp
  | cons kv rest ih =>
    simp only [List.map_cons, List.nodup_cons] at hb
    rw [List.foldl_cons,
      insertAssoc_eq_append_of_not_mem (hdisj kv (List.mem_cons_self kv rest)) kv.2,
      ih (acc ++ [(kv.1, kv.2)])]
    · simp
    · intro kv' hkv'
      simp only [List.map_append, List.mem_append, List.map_cons]
      rintro (hin | hin)
      · exact hdisj kv' (List.mem_cons_of_mem kv hkv') hin
      · simp only [List.map_nil, List.mem_singleton] at hin
        exact hb.1 (hin ▸ List.mem_map_of_mem Prod.fst hkv')
    · exact hb.2

/-! ## Lemmas about the task-queue manager model -/

theorem tqmStep_of_ownershipLost {s : TqmState} (h : s.ownershipLost = true)
    (e : TqmEvent) :
    (tqmStep s e).updateCount = s.updateCount ∧
    (tqmStep s e).ownershipLost = true := by
  cases e with
  | periodicUpdate ok => simp [tqmStep, h]
  | unload =>
    by_cases hu : s.unloaded = true <;> simp [tqmStep, h, hu]

theorem tqmRun_of_ownershipLost {s : TqmState} (h : s.ownershipLost = true)
    (evs : List TqmEvent) : (tqmRun s evs).updateCount = s.updateCount := by
  induction evs generalizing s with
  | nil => rfl
  | cons e rest ih =>
    rw [tqmRun, ih (tqmStep_of_ownershipLost h e).2,
      (tqmStep_of_ownershipLost h e).1]

/-! ## Concrete scenarios from the namespace handler tests -/

/-- The record read by `TestUpdateNamespace_UpdateActiveCluster_LimitRecordHistory`:
a global namespace on `cluster1` with the five-entry failover history. -/
def limitRecordHistoryRecord : NamespaceDetail :=
  { id := "nid"
    name := "global-ns-to-be-migrated"
    configVersion := 0
    failoverVersion := 0
    failoverNotificationVersion := 0
    replicationConfig :=
      { activeClusterName := "cluster1"
        clusters := ["cluster1", "cluster2"]
        replicationState := 0
        failoverHistory := limitRecordHistoryPrior } }

/-- The update request of the active-cluster-change tests: move the active
cluster to `cluster2` with `promote_namespace=true` and no config change. -/
def changeActiveClusterArgs : UpdateNamespaceArgs :=
  { reqActiveCluster := some "cluster2", reqPromote := true, configChanged := false }

/-- The record read by
`TestUpdateNamespace_ChangeActiveClusterWithoutUpdatingReplicationState`:
active on `cluster1`, clusters `[cluster1, cluster2]`, empty failover
history. -/
def changeActiveClusterRecord : NamespaceDetail :=
  { id := "nid"
    name := "global-ns-to-be-migrated"
    configVersion := 0
    failoverVersion := 0
    failoverNotificationVersion := 0
    replicationConfig :=
      { activeClusterName := "cluster1"
        clusters := ["cluster1", "cluster2"]
        replicationState := 0
        failoverHistory := [] } }

/-- The record read by `TestUpdateNamespace_PromoteLocalNamespace`: a local
namespace with `clusters=[cluster1]`. -/
def promoteLocalRecord : NamespaceDetail :=
  { id := "nid"
    name := "local-ns-to-be-promoted"
    configVersion := 0
    failoverVersion := 0
    failoverNotificationVersion := 0
    replicationConfig :=
      { activeClusterName := "cluster1"
        clusters := ["cluster1"]
        replicationState := 0
        failoverHistory := [] } }

/-- The promote-only update request: `promote_namespace=true`, no new
active cluster, no config change. -/
def promoteArgs : UpdateNamespaceArgs :=
  { reqActiveCluster := none, reqPromote := true, configChanged := false }

/-! ## Claim C1 -/

/-- C1 counterexample: the limit-record-history test reads a record whose
failover history already holds five entries and expects `UpdateNamespace`
to persist six — its expected history is clone-append-slice `[0:]`, which
trims nothing — so "a record that already holds 5 entries does not persist
6 after one more failover" is false on the repository's pinned behaviour
(the model reproduces it with the cap at six). -/
theorem C1_counterexample :
    limitRecordHistoryRecord.replicationConfig.failoverHistory.length = 5 ∧
    (updateNamespace limitRecordHistoryRecord false changeActiveClusterArgs 100 32
        update1Time 6).detail.replicationConfig.failoverHistory
      = sizeLimitedFailoverHistory ∧
    sizeLimitedFailoverHistory.length = 6 :=
  ⟨rfl, rfl, rfl⟩

/-- C1 (amended): on every UpdateNamespace that changes the active cluster
of a global namespace, the persisted failover_history is an ordered list of
{failover_time, failover_version} entries whose oldest entries are evicted
whenever the configured cap is exceeded, so the stored list never grows
past the cap; since the cap is at least six, a record that already holds
five entries persists six (the prior entries with the new one appended)
after one more failover. -/
theorem C1_failoverHistory_bounded
    (record : NamespaceDetail) (recordIsGlobal : Bool) (args : UpdateNamespaceArgs)
    (notifV nextV : Int) (now : Nat) (cap : Nat)
    (hcap : 6 ≤ cap)
    (hchange : activeClusterChanged record args = true)
    (hglobal : (recordIsGlobal || args.reqPromote) = true) :
    ((updateNamespace record recordIsGlobal args notifV nextV now
        cap).detail.replicationConfig.failoverHistory).length ≤ cap ∧
    (record.replicationConfig.failoverHistory.length = 5 →
      (updateNamespace record recordIsGlobal args notifV nextV now
          cap).detail.replicationConfig.failoverHistory
        = record.replicationConfig.failoverHistory ++ [⟨now, nextV⟩]) := by
  rw [updateNamespace_of_activeClusterChanged record recordIsGlobal args notifV nextV
    now cap hchange hglobal]
  refine ⟨maybeUpdateFailoverHistory_length_le _ _ _ _, fun h5 => ?_⟩
  exact maybeUpdateFailoverHistory_of_lt_cap _ _ (by omega)

/-- C1 witness: the amended claim at the limit-record-history scenario with
the cap at six. -/
theorem C1_failoverHistory_bounded_witness :
    (updateNamespace limitRecordHistoryRecord false changeActiveClusterArgs 100 32
        update1Time 6).detail.replicationConfig.failoverHistory
      = limitRecordHistoryRecord.replicationConfig.failoverHistory
          ++ [⟨update1Time, 32⟩] :=
  (C1_failoverHistory_bounded limitRecordHistoryRecord false changeActiveClusterArgs
    100 32 update1Time 6 (by decide) (by decide) (by decide)).2 (by decide)

/-! ## Claim C2 -/

/-- C2: after an UpdateNamespace that changes the active cluster of a
global namespace, the persisted record has the new (failover_time,
failover_version) entry at the end of failover_history — failover_time is
the write-time clock value and failover_version the new version obtained
from the cluster-metadata allocator — the record's failover_version equals
that new version, and failover_notification_version equals the metadata
store's notification version read at write time. -/
theorem C2_activeClusterChange_stampsFailover
    (record : NamespaceDetail) (recordIsGlobal : Bool) (args : UpdateNamespaceArgs)
    (notifV nextV : Int) (now : Nat) (cap : Nat)
    (hcap : 1 ≤ cap)
    (hchange : activeClusterChanged record args = true)
    (hglobal : (recordIsGlobal || args.reqPromote) = true) :
    ((updateNamespace record recordIsGlobal args notifV nextV now
        cap).detail.replicationConfig.failoverHistory).getLast? = some ⟨now, nextV⟩ ∧
    (updateNamespace record recordIsGlobal args notifV nextV now
        cap).detail.replicationConfig.failoverHistory
      = evictOldest cap (record.replicationConfig.failoverHistory ++ [⟨now, nextV⟩]) ∧
    (updateNamespace record recordIsGlobal args notifV nextV now
        cap).detail.failoverVersion = nextV ∧
    (updateNamespace record recordIsGlobal args notifV nextV now
        cap).detail.failoverNotificationVersion = notifV := by
  rw [updateNamespace_of_activeClusterChanged record recordIsGlobal args notifV nextV
    now cap hchange hglobal]
  exact ⟨maybeUpdateFailoverHistory_getLast? _ _ _ hcap, rfl, rfl, rfl⟩

/-- C2 witness: the change-active-cluster scenario (notification version
100, allocated version 2, write time `update1Time`). -/
theorem C2_activeClusterChange_witness :
    ((updateNamespace changeActiveClusterRecord false changeActiveClusterArgs 100 2
        update1Time 6).detail.replicationConfig.failoverHistory).getLast?
      = some ⟨update1Time, 2⟩ :=
  (C2_activeClusterChange_stampsFailover changeActiveClusterRecord false
    changeActiveClusterArgs 100 2 update1Time 6 (by decide) (by decide) (by decide)).1

/-! ## Claim C9 -/

/-- C9: promoting a local namespace (promote_namespace=true, no new active
cluster, no config change) persists is_global=true with the allocator's
next failover version, while the clusters list, active cluster and
config_version are unchanged from the record read before the update. -/
theorem C9_promoteLocalNamespace
    (record : NamespaceDetail) (args : UpdateNamespaceArgs)
    (notifV nextV : Int) (now cap : Nat)
    (hpromote : args.reqPromote = true)
    (hnoActive : args.reqActiveCluster = none)
    (hnoConfig : args.configChanged = false) :
    (updateNamespace record false args notifV nextV now cap).isGlobalNamespace = true ∧
    (updateNamespace record false args notifV nextV now cap).detail.failoverVersion
      = nextV ∧
    (updateNamespace record false args notifV nextV now
        cap).detail.replicationConfig.clusters = record.replicationConfig.clusters ∧
    (updateNamespace record false args notifV nextV now
        cap).detail.replicationConfig.activeClusterName
      = record.replicationConfig.activeClusterName ∧
    (updateNamespace record false args notifV nextV now cap).detail.configVersion
      = record.configVersion := by
  have hac : activeClusterChanged record args = false := by
    unfold activeClusterChanged
    rw [hnoActive]
  simp [updateNamespace, hac, hpromote, hnoConfig]

/-- C9 witness: the promote-local-namespace scenario (clusters=[cluster1],
allocated next failover version 2). -/
theorem C9_promoteLocalNamespace_witness :
    (updateNamespace promoteLocalRecord false promoteArgs 1 2 0 6).isGlobalNamespace
        = true ∧
    (updateNamespace promoteLocalRecord false promoteArgs 1 2 0 6).detail.failoverVersion
        = 2 ∧
    (updateNamespace promoteLocalRecord false promoteArgs 1 2 0
        6).detail.replicationConfig.clusters
      = promoteLocalRecord.replicationConfig.clusters ∧
    (updateNamespace promoteLocalRecord false promoteArgs 1 2 0
        6).detail.replicationConfig.activeClusterName
      = promoteLocalRecord.replicationConfig.activeClusterName ∧
    (updateNamespace promoteLocalRecord false promoteArgs 1 2 0 6).detail.configVersion
      = promoteLocalRecord.configVersion :=
  C9_promoteLocalNamespace promoteLocalRecord promoteArgs 1 2 0 6 rfl rfl rfl

/-! ## Claim C3 -/

/-- C3 counterexample: the repository's all-default registration test
registers a local namespace with a one-hour retention — shorter than one
day — and succeeds, so sub-day retention values are not rejected for local
namespaces. -/
theorem C3_counterexample :
    (3600 : Int) < 86400 ∧
    registerNamespace { name := "ns1", retentionSecs := 3600, isGlobalNamespace := false }
      = .ok { name := "ns1", stateRegistered := true, retentionSecs := 3600,
              isGlobalNamespace := false } :=
  ⟨by decide, rfl⟩

/-- C3 (amended): every RegisterNamespace request whose retention period is
below the minimum for its kind — one hour for a local namespace, one day
for a global namespace — is rejected with InvalidArgument
(errInvalidRetentionPeriod) and nothing is persisted; in particular
retentions of 0, negative and sub-hour values are rejected for local
namespaces, and 0, negative and sub-day values for global namespaces. -/
theorem C3_invalidRetentionRejected (req : RegisterNamespaceRequest)
    (hinv : req.retentionSecs <
      (if req.isGlobalNamespace then minRetentionGlobalSecs else minRetentionLocalSecs)) :
    registerNamespace req = .error .invalidRetentionPeriod := by
  have h : ¬ ((if req.isGlobalNamespace then minRetentionGlobalSecs
      else minRetentionLocalSecs) ≤ req.retentionSecs) := not_le.mpr hinv
  simp [registerNamespace, validateRetentionDuration, h]

/-- C3 witness: the amended claim at a thirty-minute local retention (a
value the repository's invalid-retention test rejects). -/
theorem C3_invalidRetentionRejected_witness :
    registerNamespace
        { name := "random namespace name", retentionSecs := 1800
          isGlobalNamespace := false }
      = .error .invalidRetentionPeriod :=
  C3_invalidRetentionRejected _ (by decide)

/-! ## Claim C4 -/

/-- C4: when a task-queue partition unloads, a final ack-level update is
written if and only if ownership is still held — an idle unload produces
exactly one final update; once a persistence write has failed with
ConditionFailed (ownership lost) no further ack-level update attempts
occur, on unload or otherwise. -/
theorem C4_finalUpdate_iff_ownership :
    (tqmRun initialTqmState [TqmEvent.unload]).updateCount = 1 ∧
    (∀ s : TqmState, s.unloaded = false →
      (tqmStep s TqmEvent.unload).updateCount
        = if s.ownershipLost then s.updateCount else s.updateCount + 1) ∧
    (∀ (s : TqmState) (evs : List TqmEvent), s.ownershipLost = true →
      (tqmRun s evs).updateCount = s.updateCount) ∧
    (tqmRun initialTqmState
      [TqmEvent.periodicUpdate false, TqmEvent.unload]).updateCount = 1 := by
  refine ⟨rfl, fun s hu => ?_, fun s evs ho => tqmRun_of_ownershipLost ho evs, rfl⟩
  by_cases ho : s.ownershipLost <;> simp [tqmStep, hu, ho]

/-- C4 witness: an owner that has observed ConditionFailed performs no
further ack-level update attempts across a subsequent unload and periodic
tick. -/
theorem C4_finalUpdate_iff_ownership_witness :
    (tqmRun { updateCount := 1, ownershipLost := true, unloaded := true }
      [TqmEvent.unload, TqmEvent.periodicUpdate true]).updateCount = 1 :=
  C4_finalUpdate_iff_ownership.2.2.1 _ [TqmEvent.unload, TqmEvent.periodicUpdate true] rfl

/-! ## Claim C5 -/

/-- C5: on a registry read-through that misses the main caches, a
NamespaceNotFound store result is cached as a negative NotFound result
keyed by the requested name or id in the read-through errors cache — built
with a TTL of one second — and a later probe for the handle finds it; any
other store error writes nothing to the read-through cache. -/
theorem C5_negative_result_caching (name id : String) (e : StoreError)
    (cache : ReadthroughCache) :
    (e.isNamespaceNotFound = true →
      (getNamespaceByNamePersistence name (.error e) cache).2
        = (name, RegistryError.namespaceNotFound name) :: cache ∧
      (getNamespaceByIDPersistence id (.error e) cache).2
        = (id, RegistryError.namespaceNotFound id) :: cache ∧
      getPreviousReadthroughError name
          (getNamespaceByNamePersistence name (.error e) cache).2
        = some (RegistryError.namespaceNotFound name)) ∧
    (e.isNamespaceNotFound = false →
      (getNamespaceByNamePersistence name (.error e) cache).2 = cache ∧
      (getNamespaceByIDPersistence id (.error e) cache).2 = cache) ∧
    readthroughErrorsCacheOpts.ttl = 1 := by
  refine ⟨fun h => ?_, fun h => ?_, rfl⟩
  · simp [getNamespaceByNamePersistence, getNamespaceByIDPersistence,
      updateReadthroughCache, getPreviousReadthroughError, h]
  · simp [getNamespaceByNamePersistence, getNamespaceByIDPersistence, h]

/-- C5 witness: a NamespaceNotFound store error on name "ns" is cached
negatively; a timeout on the same read-through caches nothing. -/
theorem C5_negative_result_caching_witness :
    (getNamespaceByNamePersistence "ns"
        (.error (StoreError.namespaceNotFound "ns")) []).2
      = [("ns", RegistryError.namespaceNotFound "ns")] ∧
    (getNamespaceByNamePersistence "ns" (.error StoreError.timeout) []).2 = [] :=
  ⟨((C5_negative_result_caching "ns" "nid" (StoreError.namespaceNotFound "ns") []).1
      rfl).1,
   ((C5_negative_result_caching "ns" "nid" StoreError.timeout []).2.1 rfl).1⟩

/-! ## Claim C6 -/

/-- C6: whenever the registry read-through to persistence fails with any
store error — a NamespaceNotFound, a timeout, unavailability or an internal
error alike — the by-name and by-id read-throughs return a
NamespaceNotFound error constructed from the requested handle; the original
store error is never propagated. -/
theorem C6_store_errors_masked (name id : String) (e : StoreError)
    (cache : ReadthroughCache) :
    (getNamespaceByNamePersistence name (.error e) cache).1
      = .error (RegistryError.namespaceNotFound name) ∧
    (getNamespaceByIDPersistence id (.error e) cache).1
      = .error (RegistryError.namespaceNotFound id) := by
  by_cases h : e.isNamespaceNotFound <;>
    simp [getNamespaceByNamePersistence, getNamespaceByIDPersistence, h]

/-! ## Claim C7 -/

/-- C7: `mergeBadBinaries(a, b, t)` is the map over the union of `a`'s and
`b`'s keys in which every key present in `b` maps to `b`'s value with
CreateTime set to `t` (`b`'s value replacing `a`'s on common keys), and
every key present only in `a` keeps its prior value including its prior
CreateTime; a nil `a` behaves as the empty map. -/
theorem C7_mergeBadBinaries_spec (a : Option (List (String × BadBinaryInfo)))
    (b : List (String × BadBinaryInfo)) (t : Nat) (k : String)
    (hb : (b.map Prod.fst).Nodup) :
    (∀ v : BadBinaryInfo, lookupAssoc k b = some v →
      lookupAssoc k (mergeBadBinaries a b t) = some { v with createTime := some t }) ∧
    (lookupAssoc k b = none →
      lookupAssoc k (mergeBadBinaries a b t) = lookupAssoc k (a.getD [])) ∧
    mergeBadBinaries none b t = mergeBadBinaries (some []) b t := by
  refine ⟨fun v hv => ?_, fun hv => ?_, rfl⟩
  · exact lookupAssoc_foldl_insertAssoc_some
      (fun v : BadBinaryInfo => { v with createTime := some t }) (a.getD []) k hb hv
  · exact lookupAssoc_foldl_insertAssoc_none
      (fun v : BadBinaryInfo => { v with createTime := some t }) (a.getD []) k hb hv

/-- C7 witness: the merging scenario of the bad-binaries tests — the common
key takes `b`'s value stamped with `t`, the key only in `a` keeps its prior
(absent) CreateTime. -/
theorem C7_mergeBadBinaries_spec_witness :
    lookupAssoc "k0" (mergeBadBinaries
        (some [("k0", { reason := "reason0", operator := "", createTime := none })])
        [("k0", { reason := "reason1", operator := "", createTime := none }),
         ("k1", { reason := "reason2", operator := "", createTime := none })] 99)
      = some { reason := "reason1", operator := "", createTime := some 99 } :=
  (C7_mergeBadBinaries_spec
    (some [("k0", { reason := "reason0", operator := "", createTime := none })])
    [("k0", { reason := "reason1", operator := "", createTime := none }),
     ("k1", { reason := "reason2", operator := "", createTime := none })]
    99 "k0" (by decide)).1
    { reason := "reason1", operator := "", createTime := none } (by decide)

/-! ## Claim C8 -/

/-- C8: `mergeNamespaceData(a, b)` equals the union of the two key sets
with `b`'s value winning on common keys, and nil is a two-sided identity:
merging nil with `b` gives `b` and merging `a` with nil gives `a`. -/
theorem C8_mergeNamespaceData_spec (a b : List (String × String)) (k : String)
    (hb : (b.map Prod.fst).Nodup) :
    (∀ v : String, lookupAssoc k b = some v →
      lookupAssoc k (mergeNamespaceData (some a) (some b)) = some v) ∧
    (lookupAssoc k b = none →
      lookupAssoc k (mergeNamespaceData (some a) (some b)) = lookupAssoc k a) ∧
    mergeNamespaceData none (some b) = b ∧
    mergeNamespaceData (some a) none = a := by
  have h2 : mergeNamespaceData none (some b) = ([] : List (String × String)) ++ b :=
    foldl_insertAssoc_eq_append b [] (by simp) hb
  refine ⟨fun v hv => ?_, fun hv => ?_, by simpa using h2, rfl⟩
  · exact lookupAssoc_foldl_insertAssoc_some (fun v : String => v) a k hb hv
  · exact lookupAssoc_foldl_insertAssoc_none (fun v : String => v) a k hb hv

/-- C8 witness: the merging scenario of the namespace-data tests — `b`'s
value wins on the common key, and nil is an identity on both sides. -/
theorem C8_mergeNamespaceData_spec_witness :
    lookupAssoc "k0" (mergeNamespaceData (some [("k0", "v0")])
        (some [("k0", "v1"), ("k1", "v2")]))
      = some "v1" ∧
    mergeNamespaceData none (some [("k0", "v1"), ("k1", "v2")])
      = [("k0", "v1"), ("k1", "v2")] := by
  have h := C8_mergeNamespaceData_spec [("k0", "v0")] [("k0", "v1"), ("k1", "v2")]
    "k0" (by decide)
  exact ⟨h.1 "v1" (by decide), h.2.2.1⟩

/-! ## Claim C10 -/

/-- C10: the poller-scaling decision on a root partition with
ApproximateBacklogCount=100 and ApproximateBacklogAge=1m yields a
PollRequestDeltaSuggestion of at least one when the global rate limiter
admits, yields nothing when the rate limiter denies, and yields nothing on
a fast match with zero backlog count and age. -/
theorem C10_pollerScaling_decisions :
    (∃ d : Int, makePollerScalingDecision true 0
        { approximateBacklogCount := 100, approximateBacklogAgeMs := 60000
          tasksAddRate := 0, tasksDispatchRate := 0 } true = some d ∧ 1 ≤ d) ∧
    makePollerScalingDecision true 0
        { approximateBacklogCount := 100, approximateBacklogAgeMs := 60000
          tasksAddRate := 0, tasksDispatchRate := 0 } false = none ∧
    makePollerScalingDecision true 0
        { approximateBacklogCount := 0, approximateBacklogAgeMs := 0
          tasksAddRate := 0, tasksDispatchRate := 0 } true = none :=
  ⟨⟨1, rfl, by decide⟩, rfl, rfl⟩

end Temporal
